import Mathlib

/-!
Shallow embedding of the RAG orchestration core of the RFP responder
(`src/rag_engine.py`, `src/agentic_orchestrator.py`, `src/batch_processor.py`),
together with theorems settling the spec claims about it.

External collaborators (embedding model, vector store, LLM completion
providers) are modelled as oracle values: the possible outcomes they can
produce are data, and the embedded functions are total functions of those
outcomes, mirroring the Python control flow exactly.
-/

namespace RFP

/-- Python `str.strip()` on the character list: drop leading whitespace, then
drop trailing whitespace.  (`Char.isWhitespace` stands in for Python's
whitespace class; the claims never hinge on exotic whitespace characters.) -/
def stripChars (l : List Char) : List Char :=
  (l.dropWhile Char.isWhitespace).rdropWhile Char.isWhitespace

/-- Python `str.strip()` at the `String` level. -/
def pyStrip (s : String) : String :=
  ⟨stripChars s.data⟩

/-- Python `str.upper()` (ASCII behaviour, via `Char.toUpper` on each
character). -/
def pyUpper (s : String) : String :=
  ⟨s.data.map Char.toUpper⟩

/-- Python `str.split(sep)` for a one-character separator, on character
lists: splits at every occurrence of `c`, keeping empty pieces, and always
yields at least one piece. -/
def splitOnChar (c : Char) : List Char → List (List Char)
  | [] => [[]]
  | a :: l =>
    let rest := splitOnChar c l
    if a = c then [] :: rest
    else (a :: rest.headD []) :: rest.tail

/-- Python `str.rfind(c)` on a character list: index of the rightmost
occurrence of `c`, or `none` when absent (Python returns `-1`). -/
def rfindIdx (c : Char) : List Char → Option Nat
  | [] => none
  | a :: l =>
    match rfindIdx c l with
    | some i => some (i + 1)
    | none => if a = c then some 0 else none

/-- `_truncate_at_sentence` from `src/rag_engine.py`, on character lists:

    if len(text) <= max_chars: return text
    truncated = text[:max_chars]
    last_period = truncated.rfind(".")
    if last_period != -1: return truncated[:last_period + 1]
    return truncated
-/
def truncAtChars (l : List Char) (maxChars : Nat) : List Char :=
  if l.length ≤ maxChars then l
  else
    let truncated := l.take maxChars
    match rfindIdx '.' truncated with
    | some i => truncated.take (i + 1)
    | none => truncated

/-- `_truncate_at_sentence` from `src/rag_engine.py` at the `String` level. -/
def truncate_at_sentence (text : String) (maxChars : Nat) : String :=
  ⟨truncAtChars text.data maxChars⟩

/-! Lemmas about `rfindIdx` and truncation. -/

theorem rfindIdx_isSome_of_mem {c : Char} {l : List Char} (h : c ∈ l) :
    ∃ i, rfindIdx c l = some i := by
  induction l with
  | nil => cases h
  | cons a l ih =>
    unfold rfindIdx
    cases hrec : rfindIdx c l with
    | some i => exact ⟨i + 1, rfl⟩
    | none =>
      rcases List.mem_cons.mp h with hca | hcl
      · exact ⟨0, by simp [hca.symm]⟩
      · rcases ih hcl with ⟨i, hi⟩
        rw [hrec] at hi
        cases hi

theorem rfindIdx_spec {c : Char} {l : List Char} {i : Nat}
    (h : rfindIdx c l = some i) : ∃ hb : i < l.length, l.get ⟨i, hb⟩ = c := by
  induction l generalizing i with
  | nil => cases h
  | cons a l ih =>
    unfold rfindIdx at h
    cases hrec : rfindIdx c l with
    | some j =>
      rw [hrec] at h
      have hij : i = j + 1 := by
        simpa using h.symm
      subst hij
      rcases ih hrec with ⟨hb, hget⟩
      exact ⟨by simpa using Nat.succ_lt_succ hb, hget⟩
    | none =>
      rw [hrec] at h
      by_cases hac : a = c
      · rw [if_pos hac] at h
        have hi0 : i = 0 := by simpa using h.symm
        subst hi0
        exact ⟨by simp, hac⟩
      · rw [if_neg hac] at h
        cases h

theorem rfindIdx_eq_none {c : Char} {l : List Char} (h : c ∉ l) :
    rfindIdx c l = none := by
  induction l with
  | nil => rfl
  | cons a l ih =>
    unfold rfindIdx
    rw [ih (fun hm => h (List.mem_cons_of_mem a hm))]
    have hac : a ≠ c := fun hac => h (hac ▸ List.mem_cons_self a l)
    rw [if_neg hac]

theorem getLast?_take_succ {l : List Char} {i : Nat} (hb : i < l.length) :
    (l.take (i + 1)).getLast? = some (l.get ⟨i, hb⟩) := by
  rw [List.take_succ]
  have hget : l[i]? = some (l.get ⟨i, hb⟩) := by
    simp [List.getElem?_eq_getElem hb]
  rw [hget]
  simp only [Option.toList_some]
  exact List.getLast?_concat _

theorem truncAtChars_eq (l : List Char) (maxChars : Nat) :
    truncAtChars l maxChars =
      if l.length ≤ maxChars then l
      else
        match rfindIdx '.' (l.take maxChars) with
        | some i => (l.take maxChars).take (i + 1)
        | none => l.take maxChars := rfl

theorem truncAtChars_length_le (l : List Char) (maxChars : Nat) :
    (truncAtChars l maxChars).length ≤ maxChars := by
  rw [truncAtChars_eq]
  by_cases hlen : l.length ≤ maxChars
  · simp [hlen]
  · rw [if_neg hlen]
    split
    · rename_i i hfind
      rcases rfindIdx_spec hfind with ⟨hb, _⟩
      simp only [List.length_take] at hb ⊢
      omega
    · simp only [List.length_take]
      omega

theorem stripChars_idem (l : List Char) : stripChars (stripChars l) = stripChars l := by
  unfold stripChars
  have h1 : List.dropWhile Char.isWhitespace
      (List.rdropWhile Char.isWhitespace (List.dropWhile Char.isWhitespace l)) =
      List.rdropWhile Char.isWhitespace (List.dropWhile Char.isWhitespace l) := by
    rw [List.dropWhile_eq_self_iff]
    intro hl
    have hpre : List.rdropWhile Char.isWhitespace (List.dropWhile Char.isWhitespace l) <+:
        List.dropWhile Char.isWhitespace l := List.rdropWhile_prefix _ _
    have hlen : 0 < (List.dropWhile Char.isWhitespace l).length :=
      Nat.lt_of_lt_of_le hl hpre.length_le
    have hhead := List.dropWhile_get_zero_not Char.isWhitespace l hlen
    have hget : (List.dropWhile Char.isWhitespace l).get ⟨0, hlen⟩ =
        (List.rdropWhile Char.isWhitespace (List.dropWhile Char.isWhitespace l)).get ⟨0, hl⟩ := by
      simpa using (hpre.getElem hl).symm
    rw [hget] at hhead
    exact hhead
  rw [h1, List.rdropWhile_idempotent]

theorem pyStrip_idem (s : String) : pyStrip (pyStrip s) = pyStrip s :=
  congrArg String.mk (stripChars_idem s.data)

/-! Generation (`generate_answer` in `src/rag_engine.py`).

The two completion providers are external; their possible behaviours are
modelled as oracle outcomes.  The cloud (Gemini) call either raises or yields
a response object whose truthiness and `.text` field drive the code
(`if response and response.text`); a `None` text behaves exactly like `""`
there, so the text is a plain string.  The local (Ollama) call either raises
(anywhere inside the `try`, including JSON decoding) or yields an HTTP status
plus the optional `response` field of the JSON body
(`response.json().get("response", "")`). -/

/-- FALLBACK_RESPONSE from `src/rag_engine.py`: the Fallback Sentinel. -/
def FALLBACK_RESPONSE : String :=
  "Based on the current knowledge base, limited information is available."

inductive CloudOutcome where
  | error : CloudOutcome
  | response (truthy : Bool) (text : String) : CloudOutcome

inductive LocalOutcome where
  | error : LocalOutcome
  | http (status : Nat) (responseField : Option String) : LocalOutcome

/-- The pair of provider behaviours available to one `generate_answer` call;
only the one selected by the `provider` argument is consulted. -/
structure ProviderWorld where
  cloud : CloudOutcome
  ollama : LocalOutcome

/-- Compliance-mode system prompt template of `generate_answer`. -/
def compliance_system_prompt : String :=
  "\nYou are a senior enterprise presales consultant responding to an RFP compliance sheet.\n\nFirst line must be exactly one of:\nYES\nNO\nPARTIAL\n\nThen provide 4-6 lines of technical justification.\nNo fluff. No marketing language.\n"

/-- Proposal/answer-mode system prompt template of `generate_answer`. -/
def proposal_system_prompt : String :=
  "\nYou are an enterprise presales architect preparing a formal RFP response.\n\nREQUIREMENTS:\n- 2-4 structured paragraphs.\n- Cover all listed requirements explicitly.\n- Professional enterprise tone.\n- No placeholders.\n- No one-line answers.\n- No marketing exaggeration.\n"

/-- The f-string prompt assembly of `generate_answer`. -/
def build_prompt (system_prompt context query : String) : String :=
  "\n" ++ system_prompt ++ "\n\nContext:\n" ++ context ++ "\n\nRequirement:\n" ++ query ++ "\n"

/-- `generate_answer` from `src/rag_engine.py`.  The prompt is assembled as in
the source but the provider behaviour is an oracle (model-name selection and
generation options only parameterize that oracle).  Mirrors:

    gemini:  try: ... ; if response and response.text: return response.text.strip()
             return FALLBACK_RESPONSE
             except: return FALLBACK_RESPONSE
    ollama:  try: ... ; if response.status_code == 200:
                 return response.json().get("response", "").strip()
             return FALLBACK_RESPONSE
             except: return FALLBACK_RESPONSE
-/
def generate_answer (context query mode provider : String) (w : ProviderWorld) : String :=
  let system_prompt :=
    if mode = "compliance" then compliance_system_prompt else proposal_system_prompt
  let _prompt := build_prompt system_prompt context query
  if provider = "gemini" then
    match w.cloud with
    | CloudOutcome.error => FALLBACK_RESPONSE
    | CloudOutcome.response truthy text =>
      if truthy = true ∧ text ≠ "" then pyStrip text else FALLBACK_RESPONSE
  else
    match w.ollama with
    | LocalOutcome.error => FALLBACK_RESPONSE
    | LocalOutcome.http status responseField =>
      if status = 200 then pyStrip (responseField.getD "") else FALLBACK_RESPONSE

theorem generate_answer_eq (context query mode provider : String) (w : ProviderWorld) :
    generate_answer context query mode provider w =
      if provider = "gemini" then
        match w.cloud with
        | CloudOutcome.error => FALLBACK_RESPONSE
        | CloudOutcome.response truthy text =>
          if truthy = true ∧ text ≠ "" then pyStrip text else FALLBACK_RESPONSE
      else
        match w.ollama with
        | LocalOutcome.error => FALLBACK_RESPONSE
        | LocalOutcome.http status responseField =>
          if status = 200 then pyStrip (responseField.getD "") else FALLBACK_RESPONSE := rfl

theorem pyStrip_fallback : pyStrip FALLBACK_RESPONSE = FALLBACK_RESPONSE := by decide

/-- Every value `generate_answer` can return is fixed by `pyStrip`: it is
either the sentinel or an already-stripped provider text. -/
theorem pyStrip_generate_answer (context query mode provider : String) (w : ProviderWorld) :
    pyStrip (generate_answer context query mode provider w) =
      generate_answer context query mode provider w := by
  rw [generate_answer_eq]
  by_cases hp : provider = "gemini"
  · rw [if_pos hp]
    cases w.cloud with
    | error => exact pyStrip_fallback
    | response truthy text =>
      dsimp only
      by_cases hc : truthy = true ∧ text ≠ ""
      · rw [if_pos hc]; exact pyStrip_idem text
      · rw [if_neg hc]; exact pyStrip_fallback
  · rw [if_neg hp]
    cases w.ollama with
    | error => exact pyStrip_fallback
    | http status responseField =>
      dsimp only
      by_cases hs : status = 200
      · rw [if_pos hs]; exact pyStrip_idem _
      · rw [if_neg hs]; exact pyStrip_fallback

/-! Orchestration (`agentic_rfp_answer` in `src/agentic_orchestrator.py`).

Each loop iteration retrieves context and generates an answer inside one
`try`.  `generate_answer` is total (it never raises), so an exception in the
`try` block can only come from the retrieval step; one iteration therefore
either raises during retrieval (`AttemptOutcome.exn`, no generation call) or
produces a retrieved context plus a provider behaviour for the generation
call (`AttemptOutcome.ok`).  The oracle `outcomes` assigns an outcome to each
attempt number `1, 2, ...`. -/

inductive AttemptOutcome where
  | exn : AttemptOutcome
  | ok (context : String) (w : ProviderWorld) : AttemptOutcome

/-- Result of one orchestrator call: the returned string together with the
number of loop iterations run (`attempts`) and of `generate_answer` calls
made (`genCalls`). -/
structure RunResult where
  result : String
  attempts : Nat
  genCalls : Nat

/-- The attempt loop of `agentic_rfp_answer`:

    for attempt in range(1, retries + 2):
        try:
            context = retrieve_context(question, mode)
            ...
            response = generate_answer(context, question, mode, provider)
            if response and response.strip() != FALLBACK_RESPONSE:
                return response
        except Exception as e: ...
    return FALLBACK_RESPONSE

`fuel` is the number of iterations still allowed, `attempt` the current
attempt number. -/
def agentic_go (question mode provider : String) (outcomes : Nat → AttemptOutcome) :
    Nat → Nat → RunResult
  | _attempt, 0 => ⟨FALLBACK_RESPONSE, 0, 0⟩
  | attempt, fuel + 1 =>
    match outcomes attempt with
    | AttemptOutcome.exn =>
      let rest := agentic_go question mode provider outcomes (attempt + 1) fuel
      ⟨rest.result, rest.attempts + 1, rest.genCalls⟩
    | AttemptOutcome.ok context w =>
      let response := generate_answer context question mode provider w
      if response ≠ "" ∧ pyStrip response ≠ FALLBACK_RESPONSE then
        ⟨response, 1, 1⟩
      else
        let rest := agentic_go question mode provider outcomes (attempt + 1) fuel
        ⟨rest.result, rest.attempts + 1, rest.genCalls + 1⟩

/-- `agentic_rfp_answer` from `src/agentic_orchestrator.py`: run the loop for
`retries + 1` iterations starting at attempt 1. -/
def agentic_rfp_answer (question mode provider : String) (outcomes : Nat → AttemptOutcome)
    (retries : Nat) : RunResult :=
  agentic_go question mode provider outcomes 1 (retries + 1)

/-- An attempt outcome that the spec classifies as failed: a retrieval
exception, or a generation result that is empty or equal to the sentinel. -/
def attemptYieldsFailure (question mode provider : String) (o : AttemptOutcome) : Prop :=
  o = AttemptOutcome.exn ∨
    ∃ context w, o = AttemptOutcome.ok context w ∧
      (generate_answer context question mode provider w = "" ∨
       generate_answer context question mode provider w = FALLBACK_RESPONSE)

/-- A failed attempt never passes the acceptance test of the loop. -/
theorem attemptYieldsFailure_not_accepted {question mode provider : String}
    {context : String} {w : ProviderWorld}
    (h : attemptYieldsFailure question mode provider (AttemptOutcome.ok context w)) :
    ¬(generate_answer context question mode provider w ≠ "" ∧
      pyStrip (generate_answer context question mode provider w) ≠ FALLBACK_RESPONSE) := by
  rcases h with h | ⟨context2, w2, heq, hfail⟩
  · cases h
  · cases heq
    rcases hfail with hfail | hfail
    · intro hacc
      exact hacc.1 hfail
    · intro hacc
      apply hacc.2
      rw [pyStrip_generate_answer]
      exact hfail

theorem agentic_go_attempts_le (question mode provider : String)
    (outcomes : Nat → AttemptOutcome) :
    ∀ fuel attempt,
      (agentic_go question mode provider outcomes attempt fuel).attempts ≤ fuel ∧
      (agentic_go question mode provider outcomes attempt fuel).genCalls ≤
        (agentic_go question mode provider outcomes attempt fuel).attempts := by
  intro fuel
  induction fuel with
  | zero =>
    intro attempt
    exact ⟨Nat.le_refl 0, Nat.le_refl 0⟩
  | succ n ih =>
    intro attempt
    show (agentic_go question mode provider outcomes attempt (n + 1)).attempts ≤ n + 1 ∧ _
    rw [agentic_go]
    cases houtcome : outcomes attempt with
    | exn =>
      dsimp only
      rcases ih (attempt + 1) with ⟨h1, h2⟩
      exact ⟨Nat.succ_le_succ h1, Nat.le_trans h2 (Nat.le_succ _)⟩
    | ok context w =>
      dsimp only
      by_cases hacc : generate_answer context question mode provider w ≠ "" ∧
          pyStrip (generate_answer context question mode provider w) ≠ FALLBACK_RESPONSE
      · rw [if_pos hacc]
        exact ⟨Nat.succ_le_succ (Nat.zero_le n), Nat.le_refl 1⟩
      · rw [if_neg hacc]
        rcases ih (attempt + 1) with ⟨h1, h2⟩
        exact ⟨Nat.succ_le_succ h1, Nat.succ_le_succ h2⟩

theorem agentic_go_all_fail (question mode provider : String)
    (outcomes : Nat → AttemptOutcome) :
    ∀ fuel attempt,
      (∀ j, attempt ≤ j → j < attempt + fuel →
        attemptYieldsFailure question mode provider (outcomes j)) →
      (agentic_go question mode provider outcomes attempt fuel).result = FALLBACK_RESPONSE := by
  intro fuel
  induction fuel with
  | zero => intro attempt _; rfl
  | succ n ih =>
    intro attempt hfail
    show (agentic_go question mode provider outcomes attempt (n + 1)).result = _
    rw [agentic_go]
    cases houtcome : outcomes attempt with
    | exn =>
      dsimp only
      exact ih (attempt + 1) (fun j h1 h2 => hfail j (Nat.le_of_succ_le h1) (by omega))
    | ok context w =>
      dsimp only
      have hthis := hfail attempt (Nat.le_refl attempt) (by omega)
      rw [houtcome] at hthis
      rw [if_neg (attemptYieldsFailure_not_accepted hthis)]
      exact ih (attempt + 1) (fun j h1 h2 => hfail j (Nat.le_of_succ_le h1) (by omega))

theorem agentic_go_first_success (question mode provider : String)
    (outcomes : Nat → AttemptOutcome) (k : Nat) (context : String) (w : ProviderWorld)
    (hk : outcomes k = AttemptOutcome.ok context w)
    (hne : generate_answer context question mode provider w ≠ "")
    (hnf : generate_answer context question mode provider w ≠ FALLBACK_RESPONSE) :
    ∀ fuel attempt, attempt ≤ k → k < attempt + fuel →
      (∀ j, attempt ≤ j → j < k →
        attemptYieldsFailure question mode provider (outcomes j)) →
      (agentic_go question mode provider outcomes attempt fuel).result =
          generate_answer context question mode provider w ∧
        (agentic_go question mode provider outcomes attempt fuel).attempts = k + 1 - attempt := by
  have hacc : generate_answer context question mode provider w ≠ "" ∧
      pyStrip (generate_answer context question mode provider w) ≠ FALLBACK_RESPONSE := by
    refine ⟨hne, ?_⟩
    rw [pyStrip_generate_answer]
    exact hnf
  intro fuel
  induction fuel with
  | zero => intro attempt h1 h2; omega
  | succ n ih =>
    intro attempt h1 h2 hprev
    show (agentic_go question mode provider outcomes attempt (n + 1)).result = _ ∧
      (agentic_go question mode provider outcomes attempt (n + 1)).attempts = _
    rw [agentic_go]
    by_cases hak : attempt = k
    · subst hak
      rw [hk]
      dsimp only
      rw [if_pos hacc]
      exact ⟨rfl, by dsimp only; omega⟩
    · have haltk : attempt < k := Nat.lt_of_le_of_ne h1 hak
      have hfail := hprev attempt (Nat.le_refl attempt) haltk
      cases houtcome : outcomes attempt with
      | exn =>
        dsimp only
        rcases ih (attempt + 1) haltk (by omega)
          (fun j hj1 hj2 => hprev j (Nat.le_of_succ_le hj1) hj2) with ⟨hr, ha⟩
        exact ⟨hr, by omega⟩
      | ok context2 w2 =>
        dsimp only
        rw [houtcome] at hfail
        rw [if_neg (attemptYieldsFailure_not_accepted hfail)]
        rcases ih (attempt + 1) haltk (by omega)
          (fun j hj1 hj2 => hprev j (Nat.le_of_succ_le hj1) hj2) with ⟨hr, ha⟩
        exact ⟨hr, by dsimp only; omega⟩

/-! Retrieval (`retrieve_context` in `src/rag_engine.py`).

The embedding model and the Qdrant store are external; the list of point
payloads returned by `query_points(...).points` is an oracle.  Each payload's
`payload.get("text", "")` is an optional string (`none` models a missing
key).  The configured limits come from `config.yaml` via `load_config`, also
external, so they are a parameter record. -/

/-- The four configuration values consumed by `retrieve_context`
(`top_k_excel`, `top_k_pdf`, `max_context_excel`, `max_context_pdf`). -/
structure RetrievalConfig where
  top_k_excel : Nat
  top_k_pdf : Nat
  max_context_excel : Nat
  max_context_pdf : Nat

/-- `retrieve_context` from `src/rag_engine.py`:

    top_k = TOP_K_EXCEL if mode == "compliance" else TOP_K_PDF
    max_context = MAX_CONTEXT_EXCEL if mode == "compliance" else MAX_CONTEXT_PDF
    chunks = []
    for point in results:
        chunk = point.payload.get("text", "").strip()
        if chunk:
            chunks.append(_truncate_at_sentence(chunk, max_context // top_k))
    context = "\n".join(chunks)
    return _truncate_at_sentence(context, max_context)

`query` only feeds the (external) embedding, so it does not influence the
oracle `points` here.  Python raises `ZeroDivisionError` on `top_k == 0`;
the claims only quantify over positive `top_k`, where `/` agrees with `//`. -/
def retrieve_context (cfg : RetrievalConfig) (points : List (Option String))
    (query mode : String) : String :=
  let top_k := if mode = "compliance" then cfg.top_k_excel else cfg.top_k_pdf
  let max_context := if mode = "compliance" then cfg.max_context_excel else cfg.max_context_pdf
  let chunks := points.filterMap (fun payload =>
    let chunk := pyStrip (payload.getD "")
    if chunk ≠ "" then some (truncate_at_sentence chunk (max_context / top_k)) else none)
  let context := String.intercalate "\n" chunks
  truncate_at_sentence context max_context

theorem truncate_at_sentence_length_le (text : String) (maxChars : Nat) :
    (truncate_at_sentence text maxChars).length ≤ maxChars :=
  truncAtChars_length_le text.data maxChars

/-! Compliance-sheet row processing (`process_compliance_sheet` in
`src/batch_processor.py`).  The per-row verdict/remarks extraction from a
generation result:

    lines = response.split("\n")
    compliance = lines[0].strip().upper()
    if compliance not in ["YES", "NO", "PARTIAL"]:
        compliance = "PARTIAL"
    remarks = "\n".join(lines[1:]).strip()

Python `split` on a nonempty separator always yields at least one piece
(`splitOnChar` does too), so `lines[0]` is `headD`. -/

def VALID_VERDICTS : List String := ["YES", "NO", "PARTIAL"]

/-- The verdict/remarks pair `process_compliance_sheet` writes into the
Compliance and Remarks columns for one generation result. -/
def parse_compliance_response (response : String) : String × String :=
  let lines : List String := (splitOnChar '\n' response.data).map String.mk
  let firstToken := pyUpper (pyStrip (lines.headD ""))
  let compliance := if firstToken ∈ VALID_VERDICTS then firstToken else "PARTIAL"
  let remarks := pyStrip (String.intercalate "\n" lines.tail)
  (compliance, remarks)

theorem parse_compliance_response_eq (response : String) :
    parse_compliance_response response =
      (if pyUpper (pyStrip (((splitOnChar '\n' response.data).map String.mk).headD ""))
          ∈ VALID_VERDICTS
       then pyUpper (pyStrip (((splitOnChar '\n' response.data).map String.mk).headD ""))
       else "PARTIAL",
       pyStrip (String.intercalate "\n"
         ((splitOnChar '\n' response.data).map String.mk).tail)) := rfl

/-- Shared helper: below the budget, `_truncate_at_sentence` is the
identity. -/
theorem truncate_at_sentence_of_le (text : String) (maxChars : Nat)
    (h : text.length ≤ maxChars) : truncate_at_sentence text maxChars = text := by
  show String.mk (truncAtChars text.data maxChars) = text
  rw [truncAtChars_eq, if_pos (show text.data.length ≤ maxChars from h)]

/-! Claim theorems. -/

/-- C8: for every text whose length is at most the character budget,
`_truncate_at_sentence` returns that text unchanged (truncation is the
identity below the budget, hence idempotent). -/
theorem truncate_identity_below_budget (text : String) (maxChars : Nat)
    (h : text.length ≤ maxChars) : truncate_at_sentence text maxChars = text :=
  truncate_at_sentence_of_le text maxChars h

theorem truncate_identity_below_budget_witness :
    ("abc" : String).length ≤ 5 ∧ truncate_at_sentence "abc" 5 = "abc" :=
  ⟨by decide, truncate_identity_below_budget "abc" 5 (by decide)⟩

/-- C6 counterexample: the claim quantifies over every text and budget, but a
text already within the budget is returned unchanged, so a text containing a
`.` inside the truncation window need not end with `.`: for text `"a.b"` and
budget `10` the window contains a `.` while the result `"a.b"` ends in
`'b'`. -/
theorem truncate_sentence_safety_counterexample :
    ('.' ∈ ("a.b" : String).data.take 10) ∧
      (truncate_at_sentence "a.b" 10).data.getLast? ≠ some '.' := by decide

/-- C6 (amended): for every text strictly longer than the budget, if the text
contains at least one `.` within the truncation window then the truncation
result ends with a `.`. -/
theorem truncate_sentence_safety_amended (text : String) (maxChars : Nat)
    (hlen : maxChars < text.length) (hdot : '.' ∈ text.data.take maxChars) :
    (truncate_at_sentence text maxChars).data.getLast? = some '.' := by
  have hnle : ¬ text.data.length ≤ maxChars := Nat.not_le.mpr hlen
  show (truncAtChars text.data maxChars).getLast? = some '.'
  rw [truncAtChars_eq, if_neg hnle]
  rcases rfindIdx_isSome_of_mem hdot with ⟨i, hfind⟩
  rw [hfind]
  dsimp only
  rcases rfindIdx_spec hfind with ⟨hb, hget⟩
  rw [getLast?_take_succ hb, hget]

theorem truncate_sentence_safety_amended_witness :
    (6 < ("ab.cd.xy" : String).length ∧ '.' ∈ ("ab.cd.xy" : String).data.take 6) ∧
      (truncate_at_sentence "ab.cd.xy" 6).data.getLast? = some '.' :=
  ⟨by decide, truncate_sentence_safety_amended "ab.cd.xy" 6 (by decide) (by decide)⟩

/-- C7 counterexample: again the claim fails for text already within the
budget: `"ab"` with budget `10` has no `.` in the window but the result
`"ab"` has length `2`, not `10`. -/
theorem truncate_hard_cut_counterexample :
    ('.' ∉ ("ab" : String).data.take 10) ∧ (truncate_at_sentence "ab" 10).length ≠ 10 := by
  decide

/-- C7 (amended): for every text strictly longer than the budget, if the text
contains no `.` within the truncation window then the truncation result has
length exactly the budget (a hard character cut). -/
theorem truncate_hard_cut_amended (text : String) (maxChars : Nat)
    (hlen : maxChars < text.length) (hdot : '.' ∉ text.data.take maxChars) :
    (truncate_at_sentence text maxChars).length = maxChars := by
  have hnle : ¬ text.data.length ≤ maxChars := Nat.not_le.mpr hlen
  show (truncAtChars text.data maxChars).length = maxChars
  rw [truncAtChars_eq, if_neg hnle, rfindIdx_eq_none hdot]
  dsimp only
  rw [List.length_take]
  omega

theorem truncate_hard_cut_amended_witness :
    (5 < ("abcdefgh" : String).length ∧ '.' ∉ ("abcdefgh" : String).data.take 5) ∧
      (truncate_at_sentence "abcdefgh" 5).length = 5 :=
  ⟨by decide, truncate_hard_cut_amended "abcdefgh" 5 (by decide) (by decide)⟩

/-- C1 counterexample: an empty provider response is among the claim's listed
failure modes, yet on the local path a 200-status response whose `response`
field is the empty string is returned as `""`, not as the Fallback
Sentinel. -/
theorem generate_answer_failure_modes_counterexample :
    generate_answer "" "q" "answer" "ollama"
        ⟨CloudOutcome.error, LocalOutcome.http 200 (some "")⟩ = "" ∧
      ("" : String) ≠ FALLBACK_RESPONSE := by decide

/-- C1 (amended): `generate_answer` is a total function of the provider
outcome, and so always returns instead of raising; a provider exception
(either path), a non-200 status (local path) and a falsy or empty response
(cloud path) all collapse to the Fallback Sentinel, but a 200-status local
response is returned stripped — even when that leaves the empty string. -/
theorem generate_answer_failure_modes_amended
    (context query mode provider : String) (w : ProviderWorld) :
    (provider = "gemini" → w.cloud = CloudOutcome.error →
      generate_answer context query mode provider w = FALLBACK_RESPONSE) ∧
    (provider = "gemini" → ∀ t, w.cloud = CloudOutcome.response false t →
      generate_answer context query mode provider w = FALLBACK_RESPONSE) ∧
    (provider = "gemini" → ∀ b, w.cloud = CloudOutcome.response b "" →
      generate_answer context query mode provider w = FALLBACK_RESPONSE) ∧
    (provider ≠ "gemini" → w.ollama = LocalOutcome.error →
      generate_answer context query mode provider w = FALLBACK_RESPONSE) ∧
    (provider ≠ "gemini" → ∀ s r, w.ollama = LocalOutcome.http s r → s ≠ 200 →
      generate_answer context query mode provider w = FALLBACK_RESPONSE) ∧
    (provider ≠ "gemini" → ∀ r, w.ollama = LocalOutcome.http 200 r →
      generate_answer context query mode provider w = pyStrip (r.getD "")) := by
  rw [generate_answer_eq]
  refine ⟨?_, ?_, ?_, ?_, ?_, ?_⟩
  · intro hp hc
    rw [if_pos hp, hc]
  · intro hp t hc
    rw [if_pos hp, hc]
    simp
  · intro hp b hc
    rw [if_pos hp, hc]
    simp
  · intro hp hc
    rw [if_neg hp, hc]
  · intro hp s r hc hs
    rw [if_neg hp, hc]
    dsimp only
    rw [if_neg hs]
  · intro hp r hc
    rw [if_neg hp, hc]
    dsimp only
    rw [if_pos rfl]

theorem generate_answer_failure_modes_amended_witness :
    generate_answer "" "" "answer" "gemini"
        ⟨CloudOutcome.error, LocalOutcome.error⟩ = FALLBACK_RESPONSE :=
  (generate_answer_failure_modes_amended "" "" "answer" "gemini"
    ⟨CloudOutcome.error, LocalOutcome.error⟩).1 rfl rfl

/-- C2 counterexample: the returned GenerationResult can be the empty string:
on the cloud path a truthy response whose text is `" "` passes the
`if response and response.text` check and is returned stripped, i.e. as
`""`. -/
theorem generate_answer_never_empty_counterexample :
    generate_answer "" "q" "answer" "gemini"
      ⟨CloudOutcome.response true " ", LocalOutcome.error⟩ = "" := by decide

/-- C2 (amended): exception outcomes on both paths normalize to the Fallback
Sentinel, and a falsy or empty cloud response does too; but the returned
GenerationResult can still be the empty string: a truthy non-empty cloud text
is returned stripped (possibly `""`), and a 200-status local response whose
stripped `response` field is empty is returned as `""`. -/
theorem generate_answer_never_empty_amended
    (context query mode : String) (w : ProviderWorld) :
    (∀ provider, w.cloud = CloudOutcome.error → w.ollama = LocalOutcome.error →
      generate_answer context query mode provider w = FALLBACK_RESPONSE) ∧
    (∀ t, w.cloud = CloudOutcome.response true t → t ≠ "" →
      generate_answer context query mode "gemini" w = pyStrip t) ∧
    (∀ r, w.ollama = LocalOutcome.http 200 r → pyStrip (r.getD "") = "" →
      generate_answer context query mode "ollama" w = "") := by
  refine ⟨?_, ?_, ?_⟩
  · intro provider hc ho
    rw [generate_answer_eq]
    by_cases hp : provider = "gemini"
    · rw [if_pos hp, hc]
    · rw [if_neg hp, ho]
  · intro t hc ht
    rw [generate_answer_eq, if_pos rfl, hc]
    dsimp only
    rw [if_pos ⟨rfl, ht⟩]
  · intro r ho hr
    rw [generate_answer_eq, if_neg (by decide : ¬("ollama" : String) = "gemini"), ho]
    dsimp only
    rw [if_pos rfl]
    exact hr

theorem generate_answer_never_empty_amended_witness :
    generate_answer "" "" "answer" "ollama"
        ⟨CloudOutcome.error, LocalOutcome.http 200 (some " ")⟩ = "" :=
  (generate_answer_never_empty_amended "" "" "answer"
    ⟨CloudOutcome.error, LocalOutcome.http 200 (some " ")⟩).2.2 (some " ") rfl (by decide)

/-- C3: for every question, mode, provider, attempt-outcome oracle and
non-negative retries value, one orchestrator call runs at most `retries + 1`
loop attempts and makes at most `retries + 1` calls to `generate_answer`
(each attempt makes at most one). -/
theorem agentic_retry_bound (question mode provider : String)
    (outcomes : Nat → AttemptOutcome) (retries : Nat) :
    (agentic_rfp_answer question mode provider outcomes retries).attempts ≤ retries + 1 ∧
    (agentic_rfp_answer question mode provider outcomes retries).genCalls ≤ retries + 1 := by
  rcases agentic_go_attempts_le question mode provider outcomes (retries + 1) 1 with ⟨h1, h2⟩
  exact ⟨h1, Nat.le_trans h2 h1⟩

/-- C4: if the attempts before attempt `k` all fail and attempt `k` produces
a generation result that is non-empty and not the Fallback Sentinel, the
orchestrator returns exactly that result and stops after attempt `k` (no
further attempts are made). -/
theorem agentic_first_success_returned (question mode provider : String)
    (outcomes : Nat → AttemptOutcome) (retries k : Nat) (context : String) (w : ProviderWorld)
    (hk1 : 1 ≤ k) (hk2 : k ≤ retries + 1)
    (hprev : ∀ j, 1 ≤ j → j < k →
      attemptYieldsFailure question mode provider (outcomes j))
    (hk : outcomes k = AttemptOutcome.ok context w)
    (hne : generate_answer context question mode provider w ≠ "")
    (hnf : generate_answer context question mode provider w ≠ FALLBACK_RESPONSE) :
    (agentic_rfp_answer question mode provider outcomes retries).result =
        generate_answer context question mode provider w ∧
      (agentic_rfp_answer question mode provider outcomes retries).attempts = k := by
  rcases agentic_go_first_success question mode provider outcomes k context w hk hne hnf
    (retries + 1) 1 hk1 (by omega) hprev with ⟨hr, ha⟩
  refine ⟨hr, ?_⟩
  show (agentic_go question mode provider outcomes 1 (retries + 1)).attempts = k
  omega

theorem agentic_first_success_returned_witness :
    (agentic_rfp_answer "q" "answer" "ollama"
        (fun j => if j = 1 then AttemptOutcome.exn
          else AttemptOutcome.ok ""
            ⟨CloudOutcome.error, LocalOutcome.http 200 (some "YES")⟩) 2).result = "YES" ∧
      (agentic_rfp_answer "q" "answer" "ollama"
        (fun j => if j = 1 then AttemptOutcome.exn
          else AttemptOutcome.ok ""
            ⟨CloudOutcome.error, LocalOutcome.http 200 (some "YES")⟩) 2).attempts = 2 := by
  have h := agentic_first_success_returned "q" "answer" "ollama"
    (fun j => if j = 1 then AttemptOutcome.exn
      else AttemptOutcome.ok "" ⟨CloudOutcome.error, LocalOutcome.http 200 (some "YES")⟩)
    2 2 "" ⟨CloudOutcome.error, LocalOutcome.http 200 (some "YES")⟩
    (by omega) (by omega)
    (fun j h1 h2 => by
      have hj : j = 1 := by omega
      subst hj
      exact Or.inl rfl)
    rfl (by decide) (by decide)
  refine ⟨?_, h.2⟩
  rw [h.1]
  decide

/-- C5: if every one of the `retries + 1` attempts yields an exception, an
empty generation result, or the Fallback Sentinel, the orchestrator returns
exactly the Fallback Sentinel. -/
theorem agentic_fallback_propagation (question mode provider : String)
    (outcomes : Nat → AttemptOutcome) (retries : Nat)
    (hall : ∀ j, 1 ≤ j → j ≤ retries + 1 →
      attemptYieldsFailure question mode provider (outcomes j)) :
    (agentic_rfp_answer question mode provider outcomes retries).result =
      FALLBACK_RESPONSE :=
  agentic_go_all_fail question mode provider outcomes (retries + 1) 1
    (fun j h1 h2 => hall j h1 (by omega))

theorem agentic_fallback_propagation_witness :
    (agentic_rfp_answer "q" "answer" "ollama"
      (fun _ => AttemptOutcome.exn) 0).result = FALLBACK_RESPONSE :=
  agentic_fallback_propagation "q" "answer" "ollama" (fun _ => AttemptOutcome.exn) 0
    (fun j _ _ => Or.inl rfl)

/-- C9: the verdict written by the compliance row processor is always one of
YES, NO, PARTIAL; any first-line token outside that set (after stripping and
upper-casing) is coerced to PARTIAL, and the remaining lines become the
remarks; in particular `"Maybe\nsome text"` yields `("PARTIAL", "some
text")`. -/
theorem compliance_verdict_coercion :
    (∀ response : String,
      (parse_compliance_response response).1 = "YES" ∨
        (parse_compliance_response response).1 = "NO" ∨
        (parse_compliance_response response).1 = "PARTIAL") ∧
    (∀ response : String,
      pyUpper (pyStrip (((splitOnChar '\n' response.data).map String.mk).headD ""))
          ∉ VALID_VERDICTS →
      (parse_compliance_response response).1 = "PARTIAL") ∧
    parse_compliance_response "Maybe\nsome text" = ("PARTIAL", "some text") := by
  refine ⟨?_, ?_, by decide⟩
  · intro response
    rw [parse_compliance_response_eq]
    dsimp only
    by_cases hmem : pyUpper (pyStrip (((splitOnChar '\n' response.data).map String.mk).headD ""))
        ∈ VALID_VERDICTS
    · rw [if_pos hmem]
      simpa [VALID_VERDICTS] using hmem
    · rw [if_neg hmem]
      right; right; rfl
  · intro response hmem
    rw [parse_compliance_response_eq]
    dsimp only
    rw [if_neg hmem]

theorem compliance_verdict_coercion_witness :
    (parse_compliance_response "Maybe\nsome text").1 = "PARTIAL" :=
  compliance_verdict_coercion.2.1 "Maybe\nsome text" (by decide)

/-- C10: for every configuration, retrieved point list, query and mode, with
a positive `top_k` for the mode, the string returned by `retrieve_context`
has length at most the configured max-context budget of that mode, and an
empty retrieval yields the empty string. -/
theorem retrieve_context_length_bound (cfg : RetrievalConfig)
    (points : List (Option String)) (query mode : String)
    (htop : 0 < (if mode = "compliance" then cfg.top_k_excel else cfg.top_k_pdf)) :
    (retrieve_context cfg points query mode).length ≤
        (if mode = "compliance" then cfg.max_context_excel else cfg.max_context_pdf) ∧
      (points = [] → retrieve_context cfg points query mode = "") := by
  constructor
  · exact truncate_at_sentence_length_le _ _
  · intro hpts
    subst hpts
    show truncate_at_sentence (String.intercalate "\n" []) _ = ""
    exact truncate_at_sentence_of_le _ _ (Nat.zero_le _)

theorem retrieve_context_length_bound_witness :
    ((0 : Nat) < 3 ∧
      (retrieve_context ⟨1, 3, 800, 2000⟩ [some "Alpha."] "q" "answer").length ≤ 2000) ∧
      retrieve_context ⟨1, 3, 800, 2000⟩ [] "q" "answer" = "" := by
  have h1 := retrieve_context_length_bound ⟨1, 3, 800, 2000⟩ [some "Alpha."] "q" "answer"
    (by decide)
  have h2 := retrieve_context_length_bound ⟨1, 3, 800, 2000⟩ [] "q" "answer" (by decide)
  exact ⟨⟨by decide, h1.1⟩, h2.2 rfl⟩

end RFP
